import Mathlib

/-!
Verification of the chunked, resumable PDF extraction pipeline in src/main.py.

The development shallowly embeds the pipeline's core logic:

- `load_run_log` / `save_run_log` : the checkpoint store (main.py lines 46-64),
  modelled over an explicit JSON value type since the Python code manipulates
  untyped values produced by json.load.
- `process_pdf_chunk` : the chunk extractor (main.py lines 97-128), modelled
  over an environment that says which of the three external calls
  (file upload, structured extraction, file delete) raise.
- `chunkStep` : one iteration body of the driver loop (main.py lines 176-193),
  tracking the set of transient chunk files on disk, including the
  try/finally cleanup of the temporary windowed PDF.
- `loopGo` / `mainRun` : the driver loop of `main` (main.py lines 150-199),
  recording the windowing operations, extraction attempts and checkpoint
  writes of a run.  The Python while-loop is embedded with an explicit fuel
  argument; `mainRun` supplies fuel `total + 1`, which always suffices
  because `current_page` starts at `last_processed_page + 1 ≥ 1` and
  strictly increases every iteration, so the loop runs at most `total`
  times.  (When the fuel hypothesis `total + 1 ≤ fuel + current` holds, the
  fuel-0 branch coincides with the genuine loop-exit branch, so the
  embedding agrees with the Python loop; all theorems below either satisfy
  that hypothesis or evaluate closed instances.)
-/

namespace RecipeParse

/-! ## JSON values and the checkpoint store (main.py lines 46-64) -/

/-- Values produced by Python's json.load. -/
inductive Json where
  | null
  | bool (b : Bool)
  | num (n : Int)
  | str (s : String)
  | arr (elems : List Json)
  | obj (fields : List (String × Json))

/-- Whether a JSON value is an object (a Python dict after json.load). -/
def Json.isObj : Json → Bool
  | .obj _ => true
  | _ => false

/-- Python dict.get with a default.  Objects coming out of json.load have
unique keys (later duplicates overwrite earlier ones during parsing), so the
model takes the last binding for a key, matching json.load semantics. -/
def pyDictGet (fields : List (String × Json)) (key : String) (default : Json) : Json :=
  match (fields.reverse).find? (fun kv => kv.1 == key) with
  | some kv => kv.2
  | none => default

/-- What reading the checkpoint file can yield: the file is absent, its
contents fail json.load (JSONDecodeError), or they parse to a JSON value. -/
inductive FileRead where
  | missing
  | invalid
  | valid (j : Json)

/-- Python exceptions that `load_run_log` can let escape. -/
inductive PyError where
  | attributeError
deriving DecidableEq

/-- main.py lines 46-55.  If the file does not exist, return (0, False).
Otherwise json.load it inside a try that catches JSONDecodeError and
KeyError; on a parsed dict, return data.get of the two keys with defaults.
Calling .get on a parsed value that is not a dict (a list, a string, a
number, a bool or None) raises AttributeError, which the except clause does
not catch. -/
def load_run_log (file : FileRead) : Except PyError (Json × Json) :=
  match file with
  | .missing => .ok (.num 0, .bool false)
  | .invalid => .ok (.num 0, .bool false)
  | .valid (.obj fields) =>
      .ok (pyDictGet fields "last_processed_page" (.num 0),
           pyDictGet fields "completed" (.bool false))
  | .valid _ => .error .attributeError

/-- Whether a modelled Python computation raised. -/
def raisesError {α : Type} (r : Except PyError α) : Bool :=
  match r with
  | .error _ => true
  | .ok _ => false

/-- main.py lines 57-64: the JSON object written by save_run_log. -/
def save_run_log (last_processed_page : Nat) (completed : Bool) : Json :=
  .obj [("last_processed_page", .num last_processed_page),
        ("completed", .bool completed)]

/-! ## The chunk extractor (main.py lines 97-128) -/

/-- Which of the three external-service calls made by process_pdf_chunk
raise when invoked: client.files.create (upload), client.responses.parse
(extraction), client.files.delete (cleanup). -/
structure ChunkCallEnv where
  uploadRaises : Bool
  extractRaises : Bool
  deleteRaises : Bool

/-- Observable behaviour of one process_pdf_chunk call: which external
calls were attempted, and the Boolean the function returned. -/
structure ChunkOutcome where
  uploadAttempted : Bool
  uploaded : Bool
  extractAttempted : Bool
  deleteAttempted : Bool
  result : Bool

/-- main.py lines 97-128.  The body runs inside try/except Exception:
upload, then the extraction request, then printing, then the delete of the
uploaded file, then return True.  Any raise jumps to the except clause,
which returns False; the statements after the raising one are skipped. -/
def process_pdf_chunk (env : ChunkCallEnv) : ChunkOutcome :=
  if env.uploadRaises then
    { uploadAttempted := true, uploaded := false, extractAttempted := false,
      deleteAttempted := false, result := false }
  else if env.extractRaises then
    { uploadAttempted := true, uploaded := true, extractAttempted := true,
      deleteAttempted := false, result := false }
  else if env.deleteRaises then
    { uploadAttempted := true, uploaded := true, extractAttempted := true,
      deleteAttempted := true, result := false }
  else
    { uploadAttempted := true, uploaded := true, extractAttempted := true,
      deleteAttempted := true, result := true }

/-! ## One driver-loop iteration with its temp file (main.py lines 176-193) -/

/-- Outcome of the extraction attempt for one chunk, as seen by the loop
body: process_pdf_chunk returned True, returned False, or (hypothetically)
raised out of the try block. -/
inductive ExtractOutcome where
  | success
  | failure
  | raised

/-- Control effect of one loop-body iteration. -/
inductive StepControl where
  | advance (next : Nat)
  | halt
  | raised

/-- Result of one loop-body iteration: the transient files on disk
afterwards, the checkpoint write it performed (if any), and control flow. -/
structure StepResult where
  files : List String
  save : Option (Nat × Bool)
  control : StepControl

/-- main.py line 74: the temporary chunk file name. -/
def tempName (cs ce : Nat) : String :=
  s!"temp_chunk_{cs}_{ce}.pdf"

/-- main.py lines 170-193, one iteration of the driver loop: compute
chunk_end = min(current_page + 1, total_pages); extract_pdf_pages writes
the temporary chunk file; then the try block processes the chunk (on
success save_run_log(chunk_end) and advance current_page to chunk_end + 1,
on failure break, and a raise would propagate), and the finally block
removes the temporary file if it exists — on every exit path. -/
def chunkStep (total current : Nat) (files : List String) (outcome : ExtractOutcome) :
    StepResult :=
  let ce := min (current + 1) total
  let temp := tempName current ce
  let files1 := temp :: files
  let body : Option (Nat × Bool) × StepControl :=
    match outcome with
    | .success => (some (ce, false), .advance (ce + 1))
    | .failure => (none, .halt)
    | .raised => (none, .raised)
  let files2 := if files1.contains temp then files1.filter (fun f => f != temp) else files1
  { files := files2, save := body.1, control := body.2 }

/-! ## The driver loop and a whole run (main.py lines 150-199) -/

/-- Trace of one run of main's pipeline section: the page windows cut by
extract_pdf_pages, the chunks sent to process_pdf_chunk, the checkpoint
writes in order, the value of current_page when the loop stopped, and
whether the run halted on an extraction failure. -/
structure RunResult where
  windows : List (Nat × Nat)
  extracts : List (Nat × Nat)
  saves : List (Nat × Bool)
  finalCurrent : Nat
  failed : Bool

/-- main.py lines 169-193, the while-loop, with fuel making the recursion
structural.  oracle gives the success/failure of the extraction call for
the chunk starting at a given page. -/
def loopGo (total : Nat) (oracle : Nat → Bool) : Nat → Nat → RunResult
  | 0, current => { windows := [], extracts := [], saves := [], finalCurrent := current,
                    failed := false }
  | fuel + 1, current =>
    if current ≤ total then
      let ce := min (current + 1) total
      if oracle current then
        let r := loopGo total oracle fuel (ce + 1)
        { windows := (current, ce) :: r.windows, extracts := (current, ce) :: r.extracts,
          saves := (ce, false) :: r.saves, finalCurrent := r.finalCurrent,
          failed := r.failed }
      else
        { windows := [(current, ce)], extracts := [(current, ce)], saves := [],
          finalCurrent := current, failed := true }
    else
      { windows := [], extracts := [], saves := [], finalCurrent := current,
        failed := false }

/-- main.py lines 150-199: load the checkpoint (lastProcessed, completed);
if completed, return at once with no windowing, no extraction and no write;
otherwise run the loop from current_page = lastProcessed + 1, and after it,
iff current_page > total_pages, write the completion checkpoint
(total_pages, True).  Fuel total + 1 always suffices (see file header). -/
def mainRun (total : Nat) (oracle : Nat → Bool) (lastProcessed : Nat) (completed : Bool) :
    RunResult :=
  if completed then
    { windows := [], extracts := [], saves := [], finalCurrent := 0, failed := false }
  else
    let r := loopGo total oracle (total + 1) (lastProcessed + 1)
    { windows := r.windows, extracts := r.extracts,
      saves := r.saves ++ (if total < r.finalCurrent then [(total, true)] else []),
      finalCurrent := r.finalCurrent, failed := r.failed }

/-- The checkpoint on disk after a run: the last write wins, starting from
the value last saved before the run. -/
def diskAfter (init : Nat × Bool) (saves : List (Nat × Bool)) : Nat × Bool :=
  saves.foldl (fun _ s => s) init

/-- The list of pages a chunk (chunk_start, chunk_end) covers. -/
def chunkPages (c : Nat × Nat) : List Nat :=
  List.range' c.1 (c.2 + 1 - c.1)

/-! ## Helper lemmas about the driver loop -/

/-- With every extraction succeeding, the pages of the chunks attempted
from current on are exactly the pages current..total, provided the fuel
suffices. -/
lemma loopGo_pages_all_success (total : Nat) :
    ∀ fuel current : Nat, total + 1 ≤ fuel + current →
      ((loopGo total (fun _ => true) fuel current).extracts.map chunkPages).flatten
        = List.range' current (total + 1 - current) := by
  intro fuel
  induction fuel with
  | zero =>
    intro current hf
    have h : total + 1 - current = 0 := by omega
    simp [loopGo, h]
  | succ n ih =>
    intro current hf
    by_cases h : current ≤ total
    · have hce : current ≤ min (current + 1) total := by omega
      have hce2 : min (current + 1) total ≤ total := by omega
      rw [loopGo]
      simp only [h, if_true, if_pos rfl]
      simp only [List.map_cons, List.flatten_cons]
      rw [ih (min (current + 1) total + 1) (by omega)]
      show List.range' current (min (current + 1) total + 1 - current) ++
          List.range' (min (current + 1) total + 1)
            (total + 1 - (min (current + 1) total + 1)) = _
      have happ := List.range'_append_1 current (min (current + 1) total + 1 - current)
        (total + 1 - (min (current + 1) total + 1))
      have h1 : current + (min (current + 1) total + 1 - current)
          = min (current + 1) total + 1 := by omega
      rw [h1] at happ
      rw [happ]
      congr 1
      omega
    · have hz : total + 1 - current = 0 := by omega
      rw [loopGo]
      simp [h, hz]

/-- Every chunk attempted by the loop has chunk_end = min (chunk_start + 1)
total and chunk_start ≤ chunk_end. -/
lemma loopGo_extracts_shape (total : Nat) (oracle : Nat → Bool) :
    ∀ fuel current : Nat, ∀ c ∈ (loopGo total oracle fuel current).extracts,
      c.2 = min (c.1 + 1) total ∧ c.1 ≤ c.2 := by
  intro fuel
  induction fuel with
  | zero => intro current c hc; simp [loopGo] at hc
  | succ n ih =>
    intro current c hc
    rw [loopGo] at hc
    by_cases h : current ≤ total
    · simp only [h, if_true] at hc
      by_cases ho : oracle current = true
      · simp only [ho, if_true] at hc
        rcases List.mem_cons.mp hc with h1 | h2
        · subst h1; exact ⟨rfl, by omega⟩
        · exact ih _ c h2
      · rw [if_neg ho] at hc
        simp only [List.mem_singleton] at hc
        subst hc; exact ⟨rfl, by omega⟩
    · simp [h] at hc

/-- Every checkpoint write done inside the loop has the form (chunk_end,
False) with chunk_end ≤ total. -/
lemma loopGo_saves_shape (total : Nat) (oracle : Nat → Bool) :
    ∀ fuel current : Nat, ∀ s ∈ (loopGo total oracle fuel current).saves,
      s.2 = false ∧ s.1 ≤ total := by
  intro fuel
  induction fuel with
  | zero => intro current s hs; simp [loopGo] at hs
  | succ n ih =>
    intro current s hs
    rw [loopGo] at hs
    by_cases h : current ≤ total
    · simp only [h, if_true] at hs
      by_cases ho : oracle current = true
      · simp only [ho, if_true] at hs
        rcases List.mem_cons.mp hs with h1 | h2
        · subst h1; exact ⟨rfl, by omega⟩
        · exact ih _ s h2
      · rw [if_neg ho] at hs
        simp at hs
    · simp [h] at hs

/-- When the loop is entered (current ≤ total, fuel ≥ 1), the first chunk
attempted is (current, min (current + 1) total), whatever the oracle says. -/
lemma loopGo_first_chunk (total : Nat) (oracle : Nat → Bool) (fuel current : Nat)
    (h : current ≤ total) (hf : 1 ≤ fuel) :
    (loopGo total oracle fuel current).extracts.head?
      = some (current, min (current + 1) total) := by
  cases fuel with
  | zero => omega
  | succ n =>
    rw [loopGo]
    simp only [h, if_true]
    by_cases ho : oracle current = true
    · simp [ho]
    · simp [ho]

/-- Unfolding of mainRun when the loaded checkpoint is not completed. -/
lemma mainRun_not_completed (total : Nat) (oracle : Nat → Bool) (last : Nat) :
    mainRun total oracle last false =
      { windows := (loopGo total oracle (total + 1) (last + 1)).windows,
        extracts := (loopGo total oracle (total + 1) (last + 1)).extracts,
        saves := (loopGo total oracle (total + 1) (last + 1)).saves ++
          (if total < (loopGo total oracle (total + 1) (last + 1)).finalCurrent then
            [(total, true)] else []),
        finalCurrent := (loopGo total oracle (total + 1) (last + 1)).finalCurrent,
        failed := (loopGo total oracle (total + 1) (last + 1)).failed } := rfl

/-! ## The claims -/

/-- Claim C1 is false on the code: process_pdf_chunk does not always
attempt to delete the artifact it uploaded.  Concretely, in the environment
where the upload succeeds and the extraction request raises, the artifact
was uploaded but the delete call is never attempted, because
client.files.delete sits after the extraction request inside the try block
and the except clause returns False without cleaning up. -/
theorem claim_C1_counterexample :
    (process_pdf_chunk ⟨false, true, false⟩).uploaded = true ∧
    (process_pdf_chunk ⟨false, true, false⟩).deleteAttempted = false :=
  ⟨rfl, rfl⟩

/-- Claim C1 amended: process_pdf_chunk attempts to delete the uploaded
artifact only on the success path — the delete is attempted exactly when
both the upload and the extraction request succeed; and the function
returns True exactly when the upload, the extraction and the delete all
succeed. -/
theorem claim_C1_amended (env : ChunkCallEnv) :
    (process_pdf_chunk env).deleteAttempted
        = (!env.uploadRaises && !env.extractRaises) ∧
    (process_pdf_chunk env).result
        = (!env.uploadRaises && !env.extractRaises && !env.deleteRaises) := by
  obtain ⟨u, e, d⟩ := env
  cases u <;> cases e <;> cases d <;> exact ⟨rfl, rfl⟩

/-- Claim C2: if the checkpoint was last saved as (k, False) with k < total
and the extraction call for the next chunk starting at k + 1 fails, the run
attempts exactly that one chunk, performs no checkpoint write, leaves the
checkpoint on disk at (k, False), and reports failure without marking
completion. -/
theorem claim_C2 (total k : Nat) (oracle : Nat → Bool) (hk : k < total)
    (hfail : oracle (k + 1) = false) :
    (mainRun total oracle k false).extracts = [(k + 1, min (k + 2) total)] ∧
    (mainRun total oracle k false).saves = [] ∧
    diskAfter (k, false) (mainRun total oracle k false).saves = (k, false) ∧
    (mainRun total oracle k false).failed = true := by
  rw [mainRun_not_completed]
  have h1 : k + 1 ≤ total := hk
  have h2 : ¬ (total < k + 1) := by omega
  rw [loopGo]
  rw [if_pos h1, if_neg (by simp [hfail])]
  refine ⟨rfl, ?_, ?_, rfl⟩
  · simp [h2]
  · simp [h2, diskAfter]

/-- Witness for claim C2 at total = 3, k = 1 with the oracle failing on the
chunk starting at page 2. -/
theorem claim_C2_witness :
    (mainRun 3 (fun n => !(n == 2)) 1 false).extracts = [(2, 3)] ∧
    (mainRun 3 (fun n => !(n == 2)) 1 false).saves = [] ∧
    diskAfter (1, false) (mainRun 3 (fun n => !(n == 2)) 1 false).saves = (1, false) ∧
    (mainRun 3 (fun n => !(n == 2)) 1 false).failed = true :=
  claim_C2 3 1 (fun n => !(n == 2)) (by decide) (by decide)

/-- Claim C3 is false on the code: a checkpoint file whose contents are
valid JSON but not an object (here, a JSON array) makes load_run_log raise
an uncaught AttributeError (data.get on a non-dict), instead of returning
the zero-value checkpoint; such corruption is surfaced as an error. -/
theorem claim_C3_counterexample :
    load_run_log (FileRead.valid (Json.arr [])) = Except.error PyError.attributeError :=
  rfl

/-- Claim C3 amended: load_run_log returns the zero-value checkpoint
(0, False) without raising when the checkpoint file is missing or its
contents fail to parse as JSON (JSONDecodeError is caught); but it raises —
an uncaught AttributeError — exactly when the contents parse to a JSON
value that is not an object. -/
theorem claim_C3_amended (file : FileRead) :
    ((file = FileRead.missing ∨ file = FileRead.invalid) →
      load_run_log file = Except.ok (Json.num 0, Json.bool false)) ∧
    (raisesError (load_run_log file) = true ↔
      ∃ j, file = FileRead.valid j ∧ j.isObj = false) := by
  cases file with
  | missing => exact ⟨fun _ => rfl, by simp [load_run_log, raisesError]⟩
  | invalid => exact ⟨fun _ => rfl, by simp [load_run_log, raisesError]⟩
  | valid j =>
    constructor
    · rintro (h | h) <;> exact absurd h (by simp)
    · cases j <;> simp [load_run_log, raisesError, Json.isObj]

/-- Witness for claim C3 amended: a missing checkpoint file yields the
zero-value checkpoint. -/
theorem claim_C3_amended_witness :
    load_run_log FileRead.missing = Except.ok (Json.num 0, Json.bool false) :=
  (claim_C3_amended FileRead.missing).1 (Or.inl rfl)

/-- Claim C4: starting from a fresh checkpoint with every extraction
succeeding, the chunks generated by the driver cover pages 1..totalPages
exactly once in increasing order, and each chunk satisfies
chunk_end = min (chunk_start + 1) totalPages with width at most 2. -/
theorem claim_C4 (total : Nat) :
    ((mainRun total (fun _ => true) 0 false).extracts.map chunkPages).flatten
        = List.range' 1 total ∧
    ∀ c ∈ (mainRun total (fun _ => true) 0 false).extracts,
      c.2 = min (c.1 + 1) total ∧ c.1 ≤ c.2 ∧ c.2 + 1 - c.1 ≤ 2 := by
  constructor
  · rw [mainRun_not_completed]
    show ((loopGo total (fun _ => true) (total + 1) 1).extracts.map chunkPages).flatten = _
    rw [loopGo_pages_all_success total (total + 1) 1 (by omega)]
    congr 1
  · intro c hc
    rw [mainRun_not_completed] at hc
    have hc2 : c ∈ (loopGo total (fun _ => true) (total + 1) 1).extracts := hc
    have hshape := loopGo_extracts_shape total (fun _ => true) (total + 1) 1 c hc2
    exact ⟨hshape.1, hshape.2, by omega⟩

/-- Witness for claim C4 at total = 5, with the chunk (3, 4). -/
theorem claim_C4_witness :
    ((mainRun 5 (fun _ => true) 0 false).extracts.map chunkPages).flatten
        = List.range' 1 5 ∧
    ((3, 4).2 = min ((3, 4).1 + 1) 5 ∧ (3, 4).1 ≤ (3, 4).2 ∧
      (3, 4).2 + 1 - (3, 4).1 ≤ 2) :=
  ⟨(claim_C4 5).1, (claim_C4 5).2 (3, 4) (by decide)⟩

/-- Claim C5: a run on a document whose checkpoint is already completed
performs no windowing, no extraction call and no checkpoint write — it
short-circuits, so rerunning after completion is idempotent. -/
theorem claim_C5 (total : Nat) (oracle : Nat → Bool) (last : Nat) :
    (mainRun total oracle last true).windows = [] ∧
    (mainRun total oracle last true).extracts = [] ∧
    (mainRun total oracle last true).saves = [] :=
  ⟨rfl, rfl, rfl⟩

/-- Claim C6: resuming from a checkpoint (k, False) with 0 < k < total, the
first chunk of the next run starts at page k + 1 and ends at
min (k + 2) total, whatever the extraction oracle does. -/
theorem claim_C6 (total k : Nat) (oracle : Nat → Bool) (_h0 : 0 < k) (h1 : k < total) :
    (mainRun total oracle k false).extracts.head? = some (k + 1, min (k + 2) total) := by
  rw [mainRun_not_completed]
  show (loopGo total oracle (total + 1) (k + 1)).extracts.head? = _
  rw [loopGo_first_chunk total oracle (total + 1) (k + 1) (by omega) (by omega)]

/-- Witness for claim C6 at total = 5, k = 2. -/
theorem claim_C6_witness :
    (mainRun 5 (fun _ => true) 2 false).extracts.head? = some (3, 4) :=
  claim_C6 5 2 (fun _ => true) (by decide) (by decide)

/-- Claim C7: whatever the extraction attempt does for a chunk — returns
success, returns failure, or raises — the transient windowed artifact for
that chunk is not among the files on disk after the loop-body step returns:
the finally block removes it on every exit path. -/
theorem claim_C7 (total current : Nat) (files : List String) (outcome : ExtractOutcome) :
    ((chunkStep total current files outcome).files.contains
        (tempName current (min (current + 1) total))) = false := by
  simp [chunkStep, List.contains_cons]

/-- Claim C8: every checkpoint write of any run has
lastProcessedPage ≤ totalPages, a write with completed = True has
lastProcessedPage = totalPages, and (for a run that does not short-circuit)
the completion record is written exactly when current_page ends beyond
totalPages. -/
theorem claim_C8 (total : Nat) (oracle : Nat → Bool) (last : Nat) (completed : Bool) :
    (∀ s ∈ (mainRun total oracle last completed).saves,
        s.1 ≤ total ∧ (s.2 = true → s.1 = total)) ∧
    ((total, true) ∈ (mainRun total oracle last false).saves ↔
        total < (mainRun total oracle last false).finalCurrent) := by
  constructor
  · intro s hs
    cases completed with
    | true => simp [mainRun] at hs
    | false =>
      rw [mainRun_not_completed] at hs
      rcases List.mem_append.mp hs with h1 | h2
      · have hshape := loopGo_saves_shape total oracle (total + 1) (last + 1) s h1
        refine ⟨hshape.2, fun ht => ?_⟩
        rw [ht] at hshape
        simp at hshape
      · by_cases hcond : total < (loopGo total oracle (total + 1) (last + 1)).finalCurrent
        · rw [if_pos hcond] at h2
          simp only [List.mem_singleton] at h2
          subst h2
          exact ⟨le_refl total, fun _ => rfl⟩
        · rw [if_neg hcond] at h2
          simp at h2
  · rw [mainRun_not_completed]
    show (total, true) ∈ _ ++ _ ↔ total < (loopGo total oracle (total + 1) (last + 1)).finalCurrent
    constructor
    · intro hmem
      rcases List.mem_append.mp hmem with h1 | h2
      · have hshape := loopGo_saves_shape total oracle (total + 1) (last + 1) (total, true) h1
        simp at hshape
      · by_cases hcond : total < (loopGo total oracle (total + 1) (last + 1)).finalCurrent
        · exact hcond
        · rw [if_neg hcond] at h2
          simp at h2
    · intro hlt
      refine List.mem_append_right _ ?_
      rw [if_pos hlt]
      simp

/-- Witness for claim C8 at total = 5, all extractions succeeding, fresh
checkpoint, applied to the completion write (5, True). -/
theorem claim_C8_witness :
    ((5 : Nat) ≤ 5 ∧ (true = true → (5 : Nat) = 5)) ∧
    ((5, true) ∈ (mainRun 5 (fun _ => true) 0 false).saves ↔
        5 < (mainRun 5 (fun _ => true) 0 false).finalCurrent) :=
  ⟨(claim_C8 5 (fun _ => true) 0 false).1 (5, true) (by decide),
   (claim_C8 5 (fun _ => true) 0 false).2⟩

/-- Claim C9: a 5-page document with no checkpoint and all extractions
succeeding is processed as chunks (1,2), (3,4), (5,5) in order, and the
checkpoint on disk afterwards reads (5, True). -/
theorem claim_C9 :
    (mainRun 5 (fun _ => true) 0 false).extracts = [(1, 2), (3, 4), (5, 5)] ∧
    diskAfter (0, false) (mainRun 5 (fun _ => true) 0 false).saves = (5, true) :=
  ⟨rfl, rfl⟩

/-- Claim C10: whenever the loaded checkpoint has
lastProcessedPage ≥ totalPages with completed = False (in particular a
fresh checkpoint on a 0-page document), the run performs no windowing and
no extraction call and writes exactly the completion checkpoint
(totalPages, True). -/
theorem claim_C10 (total last : Nat) (oracle : Nat → Bool) (h : total ≤ last) :
    (mainRun total oracle last false).windows = [] ∧
    (mainRun total oracle last false).extracts = [] ∧
    (mainRun total oracle last false).saves = [(total, true)] := by
  rw [mainRun_not_completed]
  have hne : ¬ (last + 1 ≤ total) := by omega
  rw [loopGo]
  rw [if_neg hne]
  have hlt : total < last + 1 := by omega
  exact ⟨rfl, rfl, by simp [hlt]⟩

/-- Witness for claim C10: the 0-page document with a fresh checkpoint. -/
theorem claim_C10_witness :
    (mainRun 0 (fun _ => false) 0 false).windows = [] ∧
    (mainRun 0 (fun _ => false) 0 false).extracts = [] ∧
    (mainRun 0 (fun _ => false) 0 false).saves = [(0, true)] :=
  claim_C10 0 0 (fun _ => false) (by decide)

end RecipeParse
